import Mathlib

/-!
Verification of the AFIP invoicing client of this repository
(`afip_service.py`, the hand-built-XML variant used by the application).

The client's response handling operates on `xml.etree.ElementTree` trees
exclusively through `for el in tree.iter()` loops reading `el.tag` and
`el.text`; a response is therefore embedded as the list of its elements in
document order.  Monetary values are exact 2-decimal amounts, embedded as
exact rationals with Python's banker's rounding.  Raised exceptions are
embedded as `Except.error` carrying the raised class and message.
-/

set_option maxRecDepth 8000

/-- One parsed XML element as seen by `xml.etree.ElementTree`: its tag
(with any namespace prefix) and its text content (`none` for `None`, i.e.
childless empty elements).  A whole response is the list of elements in
document order — exactly what the source's `for el in tree.iter()` loops
traverse. -/
structure XmlEl where
  tag : String
  text : Option String
  deriving DecidableEq

/-- A raised Python exception, as the source raises them: `afip_service.py`
raises `RuntimeError(message)` at every one of its failure sites; Python's
`int()` raises `ValueError` on a malformed literal. -/
inductive PyError where
  | runtimeError : String → PyError
  | valueError : String → PyError
  deriving DecidableEq

/-- The Python class name of a raised exception — what an
`except SomeClass:` handler discriminates on. -/
def pyClass : PyError → String
  | .runtimeError _ => "RuntimeError"
  | .valueError _ => "ValueError"

/-- The `AfipResult` dataclass (source lines 21-25). -/
structure AfipResult where
  cbte_nro : ℤ
  cae : String
  cae_vto : String
  deriving DecidableEq

/-- Boolean prefix test on character lists (structurally recursive, so that
concrete instances evaluate inside the kernel). -/
def isPre : List Char → List Char → Bool
  | [], _ => true
  | _ :: _, [] => false
  | p :: ps, c :: cs => p == c && isPre ps cs

/-- Python `s.endswith(suffix)`. -/
def strEndsWith (s suffix : String) : Bool := isPre suffix.data.reverse s.data.reverse

/-- Python `s.strip()` for the ASCII whitespace that occurs in these
documents. -/
def pyStrip (s : String) : String :=
  ⟨((s.data.dropWhile Char.isWhitespace).reverse.dropWhile Char.isWhitespace).reverse⟩

/-- Python `s[:k]` (slicing counts characters). -/
def pyTake (k : ℕ) (s : String) : String := ⟨s.data.take k⟩

/-- Python `s.upper()` (the mode strings in scope are ASCII). -/
def pyUpper (s : String) : String := ⟨s.data.map Char.toUpper⟩

/-- Python `(el.text or "").strip()`: `None` becomes `""`, surrounding
whitespace is removed. -/
def pyTextStrip (t : Option String) : String := pyStrip (t.getD "")

/-- Python truthiness of an `Optional[str]`: `None` and `""` are falsy. -/
def pyTruthy : Option String → Bool
  | none => false
  | some s => s != ""

/-- How a Python f-string renders an `Optional[str]`: `None` renders as
the text `None`. -/
def pyOptStr : Option String → String
  | none => "None"
  | some s => s

/-- Python `" | ".join(msgs)`. -/
def joinPipe : List String → String
  | [] => ""
  | [s] => s
  | s :: rest => s ++ " | " ++ joinPipe rest

/-- Python `str.strip(": ")`: removes every leading and trailing `':'` and
`' '` character. -/
def stripColonSpace (s : String) : String :=
  let p := fun c => c == ':' || c == ' '
  ⟨((s.data.dropWhile p).reverse.dropWhile p).reverse⟩

/-- One observation entry as the source builds it:
`f"{code}: {msg}".strip(": ")` (source line 347). -/
def obsEntry (code : Option String) (msg : String) : String :=
  stripColonSpace (pyOptStr code ++ ": " ++ msg)

/-- The first response-parsing loop of `AfipService.emitir_comprobante`
(source lines 331-337; textually identical in `emitir_factura_c`, lines
406-412): one pass over `tree.iter()` filling `resultado`, `cae`,
`cae_vto` by tag suffix, each only while still `None` — first match wins. -/
def scanResultStep (acc : Option String × Option String × Option String) (el : XmlEl) :
    Option String × Option String × Option String :=
  let r := if strEndsWith el.tag "Resultado" && acc.1.isNone then some (pyTextStrip el.text) else acc.1
  let c := if strEndsWith el.tag "CAE" && acc.2.1.isNone then some (pyTextStrip el.text) else acc.2.1
  let v := if strEndsWith el.tag "CAEFchVto" && acc.2.2.isNone then some (pyTextStrip el.text) else acc.2.2
  (r, c, v)

/-- The whole first loop: fold `scanResultStep` over the document order,
starting from all-`None`. -/
def scanResultFields (els : List XmlEl) : Option String × Option String × Option String :=
  els.foldl scanResultStep (none, none, none)

/-- The second response-parsing loop of `AfipService.emitir_comprobante`
(source lines 339-347; identical in `emitir_factura_c`, lines 414-422):
collects `Code`/`Msg` observation pairs.  `code` keeps the last value seen
(it is overwritten on every `Code` tag, with no guard); an entry is
appended at each `Msg` tag whenever `code` or the fresh `msg` is truthy. -/
def scanObsStep (acc : Option String × List String) (el : XmlEl) :
    Option String × List String :=
  let code := if strEndsWith el.tag "Code" then some (pyTextStrip el.text) else acc.1
  if strEndsWith el.tag "Msg" then
    let msg := pyTextStrip el.text
    if pyTruthy code || msg != "" then (code, acc.2 ++ [obsEntry code msg])
    else (code, acc.2)
  else (code, acc.2)

/-- The whole second loop: fold `scanObsStep` over the document order and
keep the accumulated entries. -/
def scanObs (els : List XmlEl) : List String :=
  (els.foldl scanObsStep (none, [])).2

/-- The rejection message built at source lines 349-351 (and 424-426):
`f"WSFE rechazó. Resultado={resultado}. {extra}"` with
`extra = " | ".join(obs_msgs) if obs_msgs else resp_xml[:800]`. -/
def rejectedMsg (resultado : Option String) (obsMsgs : List String) (respXml : String) : String :=
  "WSFE rechazó. Resultado=" ++ pyOptStr resultado ++ ". " ++
    (if obsMsgs.isEmpty then pyTake 800 respXml else joinPipe obsMsgs)

/-- The response-handling stage of `AfipService.emitir_comprobante`
(source lines 324-356), applied to the parsed response elements in
document order; `cbte_nro` is the invoice number obtained earlier in the
method.  Raising is modelled as `Except.error`.  (`emitir_factura_c`,
lines 399-431, is textually identical except that its approved-but-
incomplete message ends in " en respuesta.".) -/
def emitir_comprobante_parse (cbte_nro : ℤ) (els : List XmlEl) (resp_xml : String) :
    Except PyError AfipResult :=
  let fields := scanResultFields els
  let resultado := fields.1
  let cae := fields.2.1
  let cae_vto := fields.2.2
  let obs_msgs := scanObs els
  if resultado ≠ some "A" then
    .error (.runtimeError (rejectedMsg resultado obs_msgs resp_xml))
  else if !pyTruthy cae || !pyTruthy cae_vto then
    .error (.runtimeError "WSFE aprobó pero no encontré CAE/CAEFchVto.")
  else
    .ok ⟨cbte_nro, cae.getD "", cae_vto.getD ""⟩

/-- The `CbteNro` extraction loop of `AfipService.get_next_cbte_nro`
(source lines 235-239): `last = el.text` on every matching tag, with no
`is None` guard — the last matching element wins, and its raw `text`
(possibly `None`) is kept. -/
def scanCbteNroStep (acc : Option String) (el : XmlEl) : Option String :=
  if strEndsWith el.tag "CbteNro" then el.text else acc

/-- The whole extraction: fold `scanCbteNroStep` over the document order. -/
def scanCbteNro (els : List XmlEl) : Option String :=
  els.foldl scanCbteNroStep none

/-- Value of a decimal digit run: `some value` when the character list is a
nonempty run of ASCII digits. -/
def digitsVal (l : List Char) : Option ℕ :=
  if l.isEmpty then none
  else if l.all Char.isDigit then some (l.foldl (fun a c => a * 10 + (c.toNat - 48)) 0)
  else none

/-- Python `int(s)` on a string: strips surrounding whitespace, accepts an
optional sign followed by digits, raises `ValueError` (modelled as `none`
here) otherwise.  (Underscore digit separators are not modelled.) -/
def pyInt (s : String) : Option ℤ :=
  match (pyStrip s).data with
  | [] => none
  | c :: cs =>
    if c = '-' then (digitsVal cs).map (fun n => -(n : ℤ))
    else if c = '+' then (digitsVal cs).map (fun n => (n : ℤ))
    else (digitsVal (c :: cs)).map (fun n => (n : ℤ))

/-- The response handling of `AfipService.get_next_cbte_nro` (source lines
233-242): extract `CbteNro` (last match wins), raise if the result is
`None`, otherwise return `int(last) + 1`. -/
def get_next_cbte_nro_parse (els : List XmlEl) : Except PyError ℤ :=
  match scanCbteNro els with
  | none => .error (.runtimeError "WSFE: no encontré CbteNro en respuesta (FECompUltimoAutorizado).")
  | some t =>
    match pyInt t with
    | some n => .ok (n + 1)
    | none => .error (.valueError ("invalid literal for int() with base 10: " ++ t))

/-- A cached WSAA ticket: the `(token, sign, expiry)` triple stored in
`AfipService._ta_cache`.  Timestamps are embedded as integer seconds. -/
structure TaTicket where
  token : String
  sign : String
  exp : ℤ
  deriving DecidableEq

/-- The auth dict returned by `AfipService._get_auth`:
`{"Token": token, "Sign": sign, "Cuit": self.cuit}`. -/
structure AuthDict where
  Token : String
  Sign : String
  Cuit : ℤ
  deriving DecidableEq

/-- Model of `AfipService._get_auth` (source lines 176-185) as an explicit
state transition: given the current `_ta_cache` and `now`, and the ticket
`fresh` that `_login_wsaa` would return if invoked, produce the returned
auth dict, the new cache contents, and whether `_login_wsaa` was invoked. -/
def get_auth (cuit : ℤ) (cache : Option TaTicket) (now : ℤ) (fresh : TaTicket) :
    AuthDict × Option TaTicket × Bool :=
  match cache with
  | some t =>
    if t.exp - now > 10 * 60 then (⟨t.token, t.sign, cuit⟩, some t, false)
    else (⟨fresh.token, fresh.sign, cuit⟩, some fresh, true)
  | none => (⟨fresh.token, fresh.sign, cuit⟩, some fresh, true)

/-- Python `modo or "PROD"`: `None` and the empty string fall back to the
default. -/
def pyOrDefault (m : Option String) (d : String) : String :=
  match m with
  | none => d
  | some s => if s = "" then d else s

/-- Source line 56: `self.modo = (modo or "PROD").upper()` (ASCII
upper-casing; the mode strings in scope are ASCII). -/
def norm_modo (modo : Option String) : String := pyUpper (pyOrDefault modo "PROD")

/-- WSAA endpoint selection (source lines 65-68). -/
def wsaa_url (modo : Option String) : String :=
  if norm_modo modo = "PROD" then "https://wsaa.afip.gov.ar/ws/services/LoginCms"
  else "https://wsaahomo.afip.gov.ar/ws/services/LoginCms"

/-- WSFE endpoint selection, `AfipService._wsfe_url` (source lines 188-192). -/
def wsfe_url (modo : Option String) : String :=
  if norm_modo modo = "PROD" then "https://servicios1.afip.gov.ar/wsfev1/service.asmx"
  else "https://wswhomo.afip.gov.ar/wsfev1/service.asmx"

/-- The error raised when `openssl cms -sign` exits with non-zero status
(source lines 123-124); `diagnostic` is the backend's stderr/stdout. -/
def sign_cms_error (diagnostic : String) : PyError :=
  .runtimeError ("OpenSSL cms -sign falló:\n" ++ diagnostic)

/-- The error raised on HTTP status >= 400 from the WSFE endpoint
(`AfipService._soap_post_wsfe`, source lines 208-209). -/
def wsfe_http_error (status : ℕ) (body : String) : PyError :=
  .runtimeError ("WSFE HTTP " ++ toString status ++ "\n" ++ pyTake 2000 body)

/-- The error raised for an unsupported invoice class (source lines
283-284). -/
def unsupported_cbte_tipo_error (cbte_tipo : ℤ) : PyError :=
  .runtimeError ("CbteTipo no soportado en este fork: " ++ toString cbte_tipo)

/-- Source line 18: Factura C comprobante type. -/
def CBTE_TIPO_FACTURA_C : ℤ := 11

/-- Source line 19: Factura B comprobante type. -/
def CBTE_TIPO_FACTURA_B : ℤ := 6

/-- Round half-to-even to an integer — the rounding mode of Python's
`round` — taken on exact rationals (the monetary values on this code path
are exact 2-decimal amounts). -/
def round_half_even (q : ℚ) : ℤ :=
  let f := ⌊q⌋
  if q - (f : ℚ) < 1 / 2 then f
  else if 1 / 2 < q - (f : ℚ) then f + 1
  else if f % 2 = 0 then f else f + 1

/-- Python `round(x, 2)` on exact decimal values. -/
def py_round2 (q : ℚ) : ℚ := (round_half_even (q * 100) : ℚ) / 100

/-- The Factura B (ClassB) tax breakdown of `AfipService.emitir_comprobante`
(source lines 262-270): `rate = 0.21`;
`imp_neto = round(imp_total / (1.0 + rate), 2)`;
`imp_iva = round(imp_total - imp_neto, 2)`;
`diff = round(imp_total - (imp_neto + imp_iva), 2)`;
`if diff != 0: imp_neto = round(imp_neto + diff, 2)`.
Returns `(imp_neto, imp_iva)`. -/
def class_b_breakdown (imp_total : ℚ) : ℚ × ℚ :=
  let rate : ℚ := 21 / 100
  let imp_neto := py_round2 (imp_total / (1 + rate))
  let imp_iva := py_round2 (imp_total - imp_neto)
  let diff := py_round2 (imp_total - (imp_neto + imp_iva))
  if diff ≠ 0 then (py_round2 (imp_neto + diff), imp_iva) else (imp_neto, imp_iva)

/-- The invoice-class dispatch of `AfipService.emitir_comprobante` (source
lines 256-284): Factura C (11) sends the full total as net with no IVA;
Factura B (6) uses `class_b_breakdown`; anything else raises. -/
def breakdown_for (cbte_tipo : ℤ) (imp_total : ℚ) : Except PyError (ℚ × ℚ) :=
  if cbte_tipo = CBTE_TIPO_FACTURA_C then .ok (imp_total, 0)
  else if cbte_tipo = CBTE_TIPO_FACTURA_B then .ok (class_b_breakdown imp_total)
  else .error (unsupported_cbte_tipo_error cbte_tipo)

deriving instance DecidableEq for Except

/-- Boolean contiguous-substring test on character lists. -/
def hasSub (sub : List Char) : List Char → Bool
  | [] => sub.isEmpty
  | c :: cs => isPre sub (c :: cs) || hasSub sub cs

/-- String-level substring containment: `strContains s sub` holds when
`sub` occurs contiguously inside `s`. -/
def strContains (s sub : String) : Bool := hasSub sub.data s.data

/-- Reference semantics following the spec's words: the (stripped) text of
the first element in document order whose tag ends with the field name. -/
def firstMatchText (suffix : String) (els : List XmlEl) : Option String :=
  (els.find? (fun el => strEndsWith el.tag suffix)).map (fun el => pyTextStrip el.text)

/-- Reference semantics following the spec's words, without stripping: the
raw text of the first element in document order whose tag ends with the
field name. -/
def firstMatchRaw (suffix : String) (els : List XmlEl) : Option String :=
  (els.find? (fun el => strEndsWith el.tag suffix)).bind XmlEl.text

/-- Last-match reference semantics: the raw text of the last element in
document order whose tag ends with the field name. -/
def lastMatchRaw (suffix : String) (els : List XmlEl) : Option String :=
  ((els.filter (fun el => strEndsWith el.tag suffix)).getLast?).bind XmlEl.text

/-- Decimal digit character. -/
def digChar (n : ℕ) : Char :=
  if n = 0 then '0' else if n = 1 then '1' else if n = 2 then '2' else if n = 3 then '3'
  else if n = 4 then '4' else if n = 5 then '5' else if n = 6 then '6' else if n = 7 then '7'
  else if n = 8 then '8' else '9'

/-- Decimal digits of `n`, fuel-based so that it is structurally
recursive; `natDecChars` supplies enough fuel. -/
def natDecAux : ℕ → ℕ → List Char
  | 0, _ => []
  | fuel + 1, n => if n < 10 then [digChar n] else natDecAux fuel (n / 10) ++ [digChar (n % 10)]

/-- Decimal rendering of a natural number, as Python `str`. -/
def natDecChars (n : ℕ) : List Char := natDecAux (n + 1) n

/-- Decimal rendering of an integer, as Python `str` / f-string
interpolation of an `int`. -/
def intDecChars (z : ℤ) : List Char :=
  if z < 0 then '-' :: natDecChars z.natAbs else natDecChars z.natAbs

/-- Decimal rendering of an integer as a `String`. -/
def intDec (z : ℤ) : String := ⟨intDecChars z⟩

/-- Two-digit zero padding (strftime `%m`, `%d`, `%H`, `%M`, `%S`). -/
def pad2 (n : ℕ) : List Char := if n < 10 then '0' :: natDecChars n else natDecChars n

/-- Four-digit zero padding (strftime `%Y`, for the years in scope). -/
def pad4 (n : ℕ) : List Char :=
  if n < 10 then '0' :: '0' :: '0' :: natDecChars n
  else if n < 100 then '0' :: '0' :: natDecChars n
  else if n < 1000 then '0' :: natDecChars n
  else natDecChars n

/-- Proleptic-Gregorian civil date `(year, month, day)` from days since
the Unix epoch (the standard `civil_from_days` computation, written with
floor division, which is what `Int` division is here); this is the date an
aware UTC `datetime` renders. -/
def civilFromDays (z0 : ℤ) : ℤ × ℤ × ℤ :=
  let z := z0 + 719468
  let era := z / 146097
  let doe := z - era * 146097
  let yoe := (doe - doe / 1460 + doe / 36524 - doe / 146096) / 365
  let y := yoe + era * 400
  let doy := doe - (365 * yoe + yoe / 4 - yoe / 100)
  let mp := (5 * doy + 2) / 153
  let d := doy - (153 * mp + 2) / 5 + 1
  let m := mp + (if mp < 10 then 3 else -9)
  (y + (if m ≤ 2 then 1 else 0), m, d)

/-- Python `dt.strftime("%Y-%m-%dT%H:%M:%SZ")` for an aware UTC datetime
given as whole seconds since the Unix epoch. -/
def fmtUTCChars (t : ℤ) : List Char :=
  let days := t / 86400
  let sod := (t % 86400).toNat
  let c := civilFromDays days
  pad4 c.1.toNat ++ '-' :: pad2 c.2.1.toNat ++ '-' :: pad2 c.2.2.toNat ++
    'T' :: pad2 (sod / 3600) ++ ':' :: pad2 (sod % 3600 / 60) ++ ':' :: pad2 (sod % 60) ++ ['Z']

/-- String form of `fmtUTCChars`. -/
def fmtUTC (t : ℤ) : String := ⟨fmtUTCChars t⟩

/-- Segment of the `_build_ltr` f-string template before `<uniqueId>`
(source lines 83-86). -/
def ltrPre : String :=
  "<?xml version=\"1.0\" encoding=\"UTF-8\"?>\n<loginTicketRequest version=\"1.0\">\n  <header>\n    "

/-- Template segment between `{unique}` and `<generationTime>` (source
lines 86-87). -/
def ltrMid1 : String := "</uniqueId>\n    "

/-- Template segment between `{gen...}` and `<expirationTime>` (source
lines 87-88). -/
def ltrMid2 : String := "</generationTime>\n    "

/-- Template segment between `{exp...}` and `<service>` (source lines
88-90). -/
def ltrMid3 : String := "</expirationTime>\n  </header>\n  "

/-- Template segment after `{service}` (source lines 90-92). -/
def ltrEnd : String := "</service>\n</loginTicketRequest>\n"

/-- `AfipService._build_ltr` (source lines 77-93).  `now` is the reference
instant as whole Unix seconds, so `unique = int(now.timestamp()) = now`;
`gen = now - timedelta(minutes=5)` and `exp = now + timedelta(hours=12)`
are rendered with `strftime("%Y-%m-%dT%H:%M:%SZ")`. -/
def build_ltr (service : String) (now : ℤ) : String :=
  ltrPre ++ "<uniqueId>" ++ intDec now ++ ltrMid1 ++
    "<generationTime>" ++ fmtUTC (now - 5 * 60) ++ ltrMid2 ++
    "<expirationTime>" ++ fmtUTC (now + 12 * 3600) ++ ltrMid3 ++
    "<service>" ++ service ++ ltrEnd

/-- Drop everything up to and including the first occurrence of `pat`;
`none` when `pat` does not occur. -/
def dropThrough (pat : List Char) : List Char → Option (List Char)
  | [] => none
  | c :: cs => if isPre pat (c :: cs) then some ((c :: cs).drop pat.length) else dropThrough pat cs

/-- Extract the text content of element `tag` from a rendered document:
the characters after the first `<tag>`, up to the next `<`.  This is the
parse-back direction of the spec's round-trip property (the repository
only builds login-ticket requests; the server parses them), so it is the
inverse any XML parser implements for these simple text elements. -/
def extractField (tag doc : String) : Option String :=
  (dropThrough ("<" ++ tag ++ ">").data doc.data).map
    (fun rest => (⟨rest.takeWhile (fun c => c != '<')⟩ : String))

theorem strdata_append (s t : String) : (s ++ t).data = s.data ++ t.data := rfl

theorem strdata_mk (l : List Char) : (⟨l⟩ : String).data = l := rfl

theorem isPre_append_self (s t : List Char) : isPre s (s ++ t) = true := by
  induction s with
  | nil => rfl
  | cons p ps ih => simp [isPre, ih]

theorem hasSub_parts (sub a b : List Char) : hasSub sub (a ++ (sub ++ b)) = true := by
  induction a with
  | nil =>
    cases sub with
    | nil =>
      cases b with
      | nil => rfl
      | cons c cs => simp [hasSub, isPre]
    | cons s ss =>
      have h := isPre_append_self (s :: ss) b
      simp only [List.cons_append] at h
      simp [hasSub, h]
  | cons c cs ih => simp [hasSub, ih]

theorem strContains_of_split (s o : String) (a b : List Char)
    (h : s.data = a ++ (o.data ++ b)) : strContains s o = true := by
  unfold strContains
  rw [h]
  exact hasSub_parts o.data a b

theorem joinPipe_split {o : String} {l : List String} (ho : o ∈ l) :
    ∃ a b : List Char, (joinPipe l).data = a ++ (o.data ++ b) := by
  induction l with
  | nil => cases ho
  | cons s rest ih =>
    cases rest with
    | nil =>
      rcases List.mem_singleton.mp ho with rfl
      exact ⟨[], [], by simp [joinPipe]⟩
    | cons s2 rest2 =>
      rcases List.mem_cons.mp ho with rfl | hmem
      · refine ⟨[], (" | " ++ joinPipe (s2 :: rest2)).data, ?_⟩
        simp [joinPipe, strdata_append, List.append_assoc]
      · rcases ih hmem with ⟨a, b, hab⟩
        refine ⟨(s ++ " | ").data ++ a, b, ?_⟩
        simp [joinPipe, strdata_append, hab, List.append_assoc]

theorem round_half_even_intCast (k : ℤ) : round_half_even (k : ℚ) = k := by
  unfold round_half_even
  rw [Int.floor_intCast]
  norm_num

theorem py_round2_int_div100 (k : ℤ) : py_round2 ((k : ℚ) / 100) = (k : ℚ) / 100 := by
  unfold py_round2
  rw [div_mul_cancel₀ _ (by norm_num : (100 : ℚ) ≠ 0), round_half_even_intCast]

theorem foldl_scanResultStep_fst (els : List XmlEl) :
    ∀ acc : Option String × Option String × Option String,
      (els.foldl scanResultStep acc).1 =
        if acc.1.isSome then acc.1 else firstMatchText "Resultado" els := by
  induction els with
  | nil => rintro ⟨r, c, v⟩; cases r <;> simp [firstMatchText]
  | cons el rest ih =>
    rintro ⟨r, c, v⟩
    rw [List.foldl_cons, ih]
    by_cases hR : strEndsWith el.tag "Resultado"
    · cases r <;> simp [scanResultStep, hR, firstMatchText, List.find?_cons]
    · cases r <;> simp [scanResultStep, hR, firstMatchText, List.find?_cons]

theorem foldl_scanResultStep_cae (els : List XmlEl) :
    ∀ acc : Option String × Option String × Option String,
      (els.foldl scanResultStep acc).2.1 =
        if acc.2.1.isSome then acc.2.1 else firstMatchText "CAE" els := by
  induction els with
  | nil => rintro ⟨r, c, v⟩; cases c <;> simp [firstMatchText]
  | cons el rest ih =>
    rintro ⟨r, c, v⟩
    rw [List.foldl_cons, ih]
    by_cases hR : strEndsWith el.tag "CAE"
    · cases c <;> simp [scanResultStep, hR, firstMatchText, List.find?_cons]
    · cases c <;> simp [scanResultStep, hR, firstMatchText, List.find?_cons]

theorem foldl_scanResultStep_vto (els : List XmlEl) :
    ∀ acc : Option String × Option String × Option String,
      (els.foldl scanResultStep acc).2.2 =
        if acc.2.2.isSome then acc.2.2 else firstMatchText "CAEFchVto" els := by
  induction els with
  | nil => rintro ⟨r, c, v⟩; cases v <;> simp [firstMatchText]
  | cons el rest ih =>
    rintro ⟨r, c, v⟩
    rw [List.foldl_cons, ih]
    by_cases hR : strEndsWith el.tag "CAEFchVto"
    · cases v <;> simp [scanResultStep, hR, firstMatchText, List.find?_cons]
    · cases v <;> simp [scanResultStep, hR, firstMatchText, List.find?_cons]

theorem foldl_scanCbteNroStep (els : List XmlEl) :
    ∀ acc : Option String,
      els.foldl scanCbteNroStep acc =
        match (els.filter (fun el => strEndsWith el.tag "CbteNro")).getLast? with
        | some el => el.text
        | none => acc := by
  induction els with
  | nil => intro acc; rfl
  | cons el rest ih =>
    intro acc
    rw [List.foldl_cons, ih]
    by_cases h : strEndsWith el.tag "CbteNro"
    · rw [List.filter_cons, if_pos h]
      cases hfl : rest.filter (fun el => strEndsWith el.tag "CbteNro") with
      | nil => simp [hfl, scanCbteNroStep, h]
      | cons b l =>
        rw [List.getLast?_cons_cons]
        cases hg : (b :: l).getLast? with
        | none => simp [List.getLast?_eq_none_iff] at hg
        | some e => simp [hg]
    · rw [List.filter_cons, if_neg h]
      cases hg : (rest.filter (fun el => strEndsWith el.tag "CbteNro")).getLast? <;>
        simp [hg, scanCbteNroStep, h]

/-- C1: for every total >= 0 given as a 2-decimal-place amount (`n` cents),
the ClassB breakdown satisfies `net = round(total / 1.21, 2)` and
`tax = round(total - net, 2)`, and after the reconciliation step
`net + tax == total` holds exactly (the reconciliation `diff` is zero on
exact 2-decimal inputs, so no adjustment fires). -/
theorem classB_breakdown_reconciles (n : ℕ) :
    (class_b_breakdown ((n : ℚ) / 100)).1 = py_round2 (((n : ℚ) / 100) / (1 + 21 / 100)) ∧
    (class_b_breakdown ((n : ℚ) / 100)).2 =
      py_round2 (((n : ℚ) / 100) - (class_b_breakdown ((n : ℚ) / 100)).1) ∧
    (class_b_breakdown ((n : ℚ) / 100)).1 + (class_b_breakdown ((n : ℚ) / 100)).2 =
      (n : ℚ) / 100 := by
  set N : ℤ := round_half_even ((((n : ℚ) / 100) / (1 + 21 / 100)) * 100) with hN
  have hnet : py_round2 (((n : ℚ) / 100) / (1 + 21 / 100)) = (N : ℚ) / 100 := by
    rw [py_round2, ← hN]
  have hsub : ((n : ℚ) / 100) - (N : ℚ) / 100 = ((n - N : ℤ) : ℚ) / 100 := by
    push_cast
    ring
  have hiva : py_round2 (((n : ℚ) / 100) - (N : ℚ) / 100) = ((n - N : ℤ) : ℚ) / 100 := by
    rw [hsub, py_round2_int_div100]
  have hzero : ((n : ℚ) / 100) - ((N : ℚ) / 100 + ((n - N : ℤ) : ℚ) / 100) =
      ((0 : ℤ) : ℚ) / 100 := by
    push_cast
    ring
  have hdiff : py_round2 (((n : ℚ) / 100) - ((N : ℚ) / 100 + ((n - N : ℤ) : ℚ) / 100)) = 0 := by
    rw [hzero, py_round2_int_div100]
    norm_num
  have hb : class_b_breakdown ((n : ℚ) / 100) = ((N : ℚ) / 100, ((n - N : ℤ) : ℚ) / 100) := by
    simp only [class_b_breakdown]
    rw [hnet, hiva, hdiff]
    simp
  refine ⟨?_, ?_, ?_⟩
  · rw [hb, hnet]
  · rw [hb, hiva]
  · rw [hb]
    push_cast
    ring

/-- C2: for every authorization response whose parsed fields are
`Resultado = "A"` with both `CAE` and `CAEFchVto` present (non-empty), and
a previously obtained invoice number, the parse returns the success record
`{cbte_nro, cae = CAE, cae_vto = CAEFchVto}` without raising. -/
theorem authorize_parse_approved_ok (n : ℤ) (els : List XmlEl) (raw : String) (c v : String)
    (h : scanResultFields els = (some "A", some c, some v)) (hc : c ≠ "") (hv : v ≠ "") :
    emitir_comprobante_parse n els raw = .ok ⟨n, c, v⟩ := by
  simp [emitir_comprobante_parse, h, pyTruthy, hc, hv]

/-- C2 witness: the concrete response of the repository's own test
(`Resultado=A`, `CAE=12345678901234`, `CAEFchVto=20301231`, number 55). -/
theorem authorize_parse_approved_ok_witness :
    emitir_comprobante_parse 55
      [⟨"Resultado", some "A"⟩, ⟨"CAE", some "12345678901234"⟩, ⟨"CAEFchVto", some "20301231"⟩]
      "<resp/>" = .ok ⟨55, "12345678901234", "20301231"⟩ :=
  authorize_parse_approved_ok 55 _ "<resp/>" "12345678901234" "20301231" (by decide)
    (by decide) (by decide)

/-- C3: the ticket cache returns the cached ticket unchanged, with no
login, exactly when `expiresAt - now > 10 min`; otherwise it invokes the
login, replaces the cache with the fresh ticket and returns it. -/
theorem get_auth_cache_behavior (cuit : ℤ) (cache : Option TaTicket) (now : ℤ)
    (fresh : TaTicket) :
    (∀ t, cache = some t → t.exp - now > 10 * 60 →
      get_auth cuit cache now fresh = (⟨t.token, t.sign, cuit⟩, cache, false)) ∧
    ((cache = none ∨ ∃ t, cache = some t ∧ t.exp - now ≤ 10 * 60) →
      get_auth cuit cache now fresh = (⟨fresh.token, fresh.sign, cuit⟩, some fresh, true)) := by
  constructor
  · rintro t rfl h
    simp [get_auth, h]
    omega
  · rintro (rfl | ⟨t, rfl, h⟩)
    · rfl
    · simp [get_auth, not_lt.mpr h]
      omega

/-- C3 witness: a ticket 1000 s from expiry is served from the cache with
no login; a ticket 500 s from expiry triggers one login and a cache
replacement. -/
theorem get_auth_cache_behavior_witness :
    get_auth 1 (some ⟨"tok", "sig", 1000⟩) 0 ⟨"T", "S", 99999⟩ =
      (⟨"tok", "sig", 1⟩, some ⟨"tok", "sig", 1000⟩, false) ∧
    get_auth 1 (some ⟨"tok", "sig", 500⟩) 0 ⟨"T", "S", 99999⟩ =
      (⟨"T", "S", 1⟩, some ⟨"T", "S", 99999⟩, true) :=
  ⟨(get_auth_cache_behavior 1 (some ⟨"tok", "sig", 1000⟩) 0 ⟨"T", "S", 99999⟩).1 _ rfl
      (by decide),
   (get_auth_cache_behavior 1 (some ⟨"tok", "sig", 500⟩) 0 ⟨"T", "S", 99999⟩).2
      (Or.inr ⟨_, rfl, by decide⟩)⟩

/-- C5 counterexample: a response carrying two `CbteNro` elements, with
texts "1" and "2" in document order.  Uniform first-match semantics would
extract "1" (and answer 2); the client's `get_next_cbte_nro` extraction
keeps the last match "2" and answers 3. -/
theorem cbte_nro_first_match_refuted :
    get_next_cbte_nro_parse [⟨"CbteNro", some "1"⟩, ⟨"CbteNro", some "2"⟩] = .ok 3 ∧
    scanCbteNro [⟨"CbteNro", some "1"⟩, ⟨"CbteNro", some "2"⟩] = some "2" ∧
    firstMatchRaw "CbteNro" [⟨"CbteNro", some "1"⟩, ⟨"CbteNro", some "2"⟩] = some "1" := by
  refine ⟨by decide, by decide, by decide⟩

/-- C5 amended: the `Resultado`/`CAE`/`CAEFchVto` extractions follow
first-match-in-document-order semantics, but the `CbteNro` extraction of
`get_next_cbte_nro` follows last-match-wins semantics (raw text, no
strip), so tag-suffix matching is not uniformly first-match across the
client. -/
theorem tag_suffix_scan_semantics (els : List XmlEl) :
    (scanResultFields els).1 = firstMatchText "Resultado" els ∧
    (scanResultFields els).2.1 = firstMatchText "CAE" els ∧
    (scanResultFields els).2.2 = firstMatchText "CAEFchVto" els ∧
    scanCbteNro els = lastMatchRaw "CbteNro" els := by
  refine ⟨?_, ?_, ?_, ?_⟩
  · rw [scanResultFields, foldl_scanResultStep_fst]
    rfl
  · rw [scanResultFields, foldl_scanResultStep_cae]
    rfl
  · rw [scanResultFields, foldl_scanResultStep_vto]
    rfl
  · rw [scanCbteNro, foldl_scanCbteNroStep]
    unfold lastMatchRaw
    cases hg : (els.filter (fun el => strEndsWith el.tag "CbteNro")).getLast? <;> simp [hg]

/-- C6: when the response's `CbteNro` extraction yields a numeric value
`k`, `get_next_cbte_nro` returns `k + 1`; when no element's tag ends in
`CbteNro`, it raises (the spec's `ProtocolError`, realized in the source
as a `RuntimeError` with the fixed protocol message). -/
theorem next_cbte_nro_parse_spec :
    (∀ (els : List XmlEl) (t : String) (k : ℤ), scanCbteNro els = some t → pyInt t = some k →
      get_next_cbte_nro_parse els = .ok (k + 1)) ∧
    (∀ els : List XmlEl, (∀ el ∈ els, strEndsWith el.tag "CbteNro" = false) →
      get_next_cbte_nro_parse els = .error (.runtimeError
        "WSFE: no encontré CbteNro en respuesta (FECompUltimoAutorizado).")) := by
  constructor
  · intro els t k h1 h2
    simp [get_next_cbte_nro_parse, h1, h2]
  · intro els h
    have hnone : scanCbteNro els = none := by
      rw [scanCbteNro, foldl_scanCbteNroStep]
      have : els.filter (fun el => strEndsWith el.tag "CbteNro") = [] := by
        rw [List.filter_eq_nil_iff]
        intro a ha
        simp [h a ha]
      rw [this]
      rfl
    simp [get_next_cbte_nro_parse, hnone]

/-- C6 witness: a response with `CbteNro = 41` answers 42; a response with
no `CbteNro` element raises the protocol error. -/
theorem next_cbte_nro_parse_spec_witness :
    get_next_cbte_nro_parse [⟨"ns:CbteNro", some "41"⟩] = .ok 42 ∧
    get_next_cbte_nro_parse [⟨"ns:PtoVta", some "1"⟩] = .error (.runtimeError
      "WSFE: no encontré CbteNro en respuesta (FECompUltimoAutorizado).") :=
  ⟨next_cbte_nro_parse_spec.1 _ "41" 41 (by decide) (by decide),
   next_cbte_nro_parse_spec.2 _ (by decide)⟩

/-- C8: for every response whose parsed `Resultado` is "A" but whose `CAE`
or `CAEFchVto` is missing or empty, the parse raises (the spec's
`ProtocolError`, realized in the source as a `RuntimeError` with the fixed
approved-but-incomplete message) instead of returning success. -/
theorem authorize_parse_incomplete_raises (n : ℤ) (els : List XmlEl) (raw : String)
    (h : (scanResultFields els).1 = some "A")
    (h2 : pyTruthy (scanResultFields els).2.1 = false ∨
      pyTruthy (scanResultFields els).2.2 = false) :
    emitir_comprobante_parse n els raw =
      .error (.runtimeError "WSFE aprobó pero no encontré CAE/CAEFchVto.") := by
  rcases h2 with h2 | h2 <;> simp [emitir_comprobante_parse, h, h2]

/-- C8 witness: approved response with an empty `CAE` raises the
approved-but-incomplete error. -/
theorem authorize_parse_incomplete_raises_witness :
    emitir_comprobante_parse 7 [⟨"Resultado", some "A"⟩, ⟨"CAE", some ""⟩] "<r/>" =
      .error (.runtimeError "WSFE aprobó pero no encontré CAE/CAEFchVto.") :=
  authorize_parse_incomplete_raises 7 _ "<r/>" (by decide) (Or.inl (by decide))

/-- C4: for every response whose parsed `Resultado` is not "A", the parse
raises (the spec's `RejectedError`, realized in the source as a
`RuntimeError` whose message starts with the fixed rejection text); the
message contains every joined `Code`/`Msg` observation entry, or a copy of
the truncated raw response when no observations are present. -/
theorem authorize_parse_rejected_error (n : ℤ) (els : List XmlEl) (raw : String)
    (h : (scanResultFields els).1 ≠ some "A") :
    emitir_comprobante_parse n els raw =
      .error (.runtimeError (rejectedMsg (scanResultFields els).1 (scanObs els) raw)) ∧
    (∀ o ∈ scanObs els,
      strContains (rejectedMsg (scanResultFields els).1 (scanObs els) raw) o = true) ∧
    (scanObs els = [] →
      strContains (rejectedMsg (scanResultFields els).1 (scanObs els) raw)
        (pyTake 800 raw) = true) := by
  refine ⟨?_, ?_, ?_⟩
  · simp [emitir_comprobante_parse, h]
  · intro o ho
    have hne : (scanObs els).isEmpty = false := by
      cases hsc : scanObs els with
      | nil => rw [hsc] at ho; cases ho
      | cons x xs => rfl
    rcases joinPipe_split ho with ⟨a, b, hab⟩
    apply strContains_of_split _ _
      (("WSFE rechazó. Resultado=" ++ pyOptStr (scanResultFields els).1 ++ ". ").data ++ a) b
    simp [rejectedMsg, hne, strdata_append, hab, List.append_assoc]
  · intro h0
    apply strContains_of_split _ _
      (("WSFE rechazó. Resultado=" ++ pyOptStr (scanResultFields els).1 ++ ". ").data) []
    simp [rejectedMsg, h0, strdata_append, List.append_assoc]

/-- C4 witness: `Resultado=R` with observation `{Code:10015, Msg:"CUIT
invalido"}` raises the rejection error, and the message contains both
"10015" and "CUIT invalido". -/
theorem authorize_parse_rejected_error_witness :
    emitir_comprobante_parse 55
      [⟨"Resultado", some "R"⟩, ⟨"Code", some "10015"⟩, ⟨"Msg", some "CUIT invalido"⟩]
      "<raw/>" = .error (.runtimeError "WSFE rechazó. Resultado=R. 10015: CUIT invalido") ∧
    strContains "WSFE rechazó. Resultado=R. 10015: CUIT invalido" "10015" = true ∧
    strContains "WSFE rechazó. Resultado=R. 10015: CUIT invalido" "CUIT invalido" = true := by
  have h := (authorize_parse_rejected_error 55
    [⟨"Resultado", some "R"⟩, ⟨"Code", some "10015"⟩, ⟨"Msg", some "CUIT invalido"⟩]
    "<raw/>" (by decide)).1
  exact ⟨h.trans (by decide), by decide, by decide⟩

/-- C9 counterexample: the five failure conditions (rejection,
approved-but-incomplete, signing failure, HTTP failure, unsupported
invoice class) all raise values with the same Python exception class
`RuntimeError`; there are no five distinct, type-distinguishable error
types in the code. -/
theorem error_types_not_distinct :
    ∃ e1 e2 e3 e4 e5 : PyError,
      emitir_comprobante_parse 1 [⟨"Resultado", some "R"⟩] "x" = .error e1 ∧
      emitir_comprobante_parse 1 [⟨"Resultado", some "A"⟩] "x" = .error e2 ∧
      e3 = sign_cms_error "backend diagnostics" ∧
      e4 = wsfe_http_error 500 "Internal Server Error" ∧
      breakdown_for 99 ((121 : ℚ) / 100) = .error e5 ∧
      pyClass e1 = pyClass e2 ∧ pyClass e2 = pyClass e3 ∧
      pyClass e3 = pyClass e4 ∧ pyClass e4 = pyClass e5 :=
  ⟨.runtimeError "WSFE rechazó. Resultado=R. x",
   .runtimeError "WSFE aprobó pero no encontré CAE/CAEFchVto.",
   sign_cms_error "backend diagnostics",
   wsfe_http_error 500 "Internal Server Error",
   .runtimeError "CbteTipo no soportado en este fork: 99",
   by decide, by decide, rfl, rfl, by decide, rfl, rfl, rfl, rfl⟩

/-- C9 amended: the five failure conditions are raised as one single error
type — Python `RuntimeError` — carrying condition-specific messages; a
caller cannot distinguish them by exception type. -/
theorem error_single_runtime_class :
    emitir_comprobante_parse 1 [⟨"Resultado", some "R"⟩] "x" =
      .error (.runtimeError "WSFE rechazó. Resultado=R. x") ∧
    emitir_comprobante_parse 1 [⟨"Resultado", some "A"⟩] "x" =
      .error (.runtimeError "WSFE aprobó pero no encontré CAE/CAEFchVto.") ∧
    breakdown_for 99 ((121 : ℚ) / 100) =
      .error (.runtimeError "CbteTipo no soportado en este fork: 99") ∧
    pyClass (sign_cms_error "backend diagnostics") = "RuntimeError" ∧
    pyClass (wsfe_http_error 500 "Internal Server Error") = "RuntimeError" ∧
    pyClass (.runtimeError "WSFE rechazó. Resultado=R. x") = "RuntimeError" ∧
    pyClass (.runtimeError "WSFE aprobó pero no encontré CAE/CAEFchVto.") = "RuntimeError" ∧
    pyClass (.runtimeError "CbteTipo no soportado en este fork: 99") = "RuntimeError" :=
  ⟨by decide, by decide, by decide, rfl, rfl, rfl, rfl, rfl⟩

/-- C10: the client selects the production endpoints iff the mode string,
after the `or "PROD"` default for missing/empty and upper-casing, equals
"PROD"; every other string silently selects the homologation endpoints. -/
theorem mode_selection_spec (modo : Option String) :
    ((wsaa_url modo = "https://wsaa.afip.gov.ar/ws/services/LoginCms" ∧
      wsfe_url modo = "https://servicios1.afip.gov.ar/wsfev1/service.asmx") ↔
      pyUpper (pyOrDefault modo "PROD") = "PROD") ∧
    (pyUpper (pyOrDefault modo "PROD") ≠ "PROD" →
      wsaa_url modo = "https://wsaahomo.afip.gov.ar/ws/services/LoginCms" ∧
      wsfe_url modo = "https://wswhomo.afip.gov.ar/wsfev1/service.asmx") ∧
    norm_modo none = "PROD" ∧ norm_modo (some "") = "PROD" := by
  have hnone : norm_modo none = "PROD" := by decide
  have hempty : norm_modo (some "") = "PROD" := by decide
  by_cases h : pyUpper (pyOrDefault modo "PROD") = "PROD"
  · have hw : wsaa_url modo = "https://wsaa.afip.gov.ar/ws/services/LoginCms" := by
      rw [wsaa_url, norm_modo, if_pos h]
    have hf : wsfe_url modo = "https://servicios1.afip.gov.ar/wsfev1/service.asmx" := by
      rw [wsfe_url, norm_modo, if_pos h]
    exact ⟨⟨fun _ => h, fun _ => ⟨hw, hf⟩⟩, fun hc => absurd h hc, hnone, hempty⟩
  · have hw : wsaa_url modo = "https://wsaahomo.afip.gov.ar/ws/services/LoginCms" := by
      rw [wsaa_url, norm_modo, if_neg h]
    have hf : wsfe_url modo = "https://wswhomo.afip.gov.ar/wsfev1/service.asmx" := by
      rw [wsfe_url, norm_modo, if_neg h]
    refine ⟨⟨fun hp => ?_, fun hp => absurd hp h⟩, fun _ => ⟨hw, hf⟩, hnone, hempty⟩
    rw [hw] at hp
    exact absurd hp.1 (by decide)

/-- C10 witness: lower-case "prod" selects production; "HOMO" and the
misspelled "PRDO" silently select homologation. -/
theorem mode_selection_spec_witness :
    wsaa_url (some "prod") = "https://wsaa.afip.gov.ar/ws/services/LoginCms" ∧
    wsfe_url (some "HOMO") = "https://wswhomo.afip.gov.ar/wsfev1/service.asmx" ∧
    wsfe_url (some "PRDO") = "https://wswhomo.afip.gov.ar/wsfev1/service.asmx" :=
  ⟨((mode_selection_spec (some "prod")).1.mpr (by decide)).1,
   ((mode_selection_spec (some "HOMO")).2.1 (by decide)).2,
   ((mode_selection_spec (some "PRDO")).2.1 (by decide)).2⟩

/-- A segment is clean for `pat` when no occurrence of `pat` begins inside
it, whatever follows: the search may skip the whole segment. -/
def CleanFor (pat l : List Char) : Prop :=
  ∀ rest, dropThrough pat (l ++ rest) = dropThrough pat rest

/-- `pat` mismatches `s` strictly within `s`: the characters differ at
some position below both lengths. -/
def mismatchWithin : List Char → List Char → Bool
  | _, [] => false
  | [], _ :: _ => false
  | p :: ps, c :: cs => p != c || mismatchWithin ps cs

/-- Every tail of the segment mismatches the pattern within the segment. -/
def noStop (pat : List Char) : List Char → Bool
  | [] => true
  | c :: cs => mismatchWithin pat (c :: cs) && noStop pat cs

theorem mismatchWithin_not_isPre (pat : List Char) :
    ∀ s : List Char, mismatchWithin pat s = true →
      ∀ rest, isPre pat (s ++ rest) = false := by
  induction pat with
  | nil =>
    intro s h rest
    cases s with
    | nil => cases h
    | cons c cs => exact absurd h (by simp [mismatchWithin])
  | cons p ps ih =>
    intro s h rest
    cases s with
    | nil => cases h
    | cons c cs =>
      simp only [mismatchWithin, Bool.or_eq_true] at h
      simp only [List.cons_append, isPre]
      rcases h with h1 | h2
      · rw [beq_eq_false_iff_ne.mpr (bne_iff_ne.mp h1)]
        rfl
      · have hi := ih cs h2 rest
        simp only [List.append_eq] at hi ⊢
        rw [hi]
        simp

theorem noStop_clean (pat seg : List Char) (h : noStop pat seg = true) : CleanFor pat seg := by
  induction seg with
  | nil => intro rest; rfl
  | cons c cs ih =>
    intro rest
    simp only [noStop, Bool.and_eq_true] at h
    have hm := mismatchWithin_not_isPre pat (c :: cs) h.1 rest
    simp only [List.cons_append] at hm ⊢
    simp only [dropThrough, hm]
    exact ih h.2 rest

theorem clean_append {pat a b : List Char} (ha : CleanFor pat a) (hb : CleanFor pat b) :
    CleanFor pat (a ++ b) := by
  intro rest
  rw [List.append_assoc, ha, hb]

theorem clean_no_head (p : Char) (ps u : List Char) (h : ∀ c ∈ u, ¬ c = p) :
    CleanFor (p :: ps) u := by
  induction u with
  | nil => intro rest; rfl
  | cons c cs ih =>
    intro rest
    have hc : (p == c) = false :=
      beq_eq_false_iff_ne.mpr (fun he => (h c (List.mem_cons_self c cs)) he.symm)
    simp only [List.cons_append, dropThrough, isPre, hc, Bool.false_and]
    simp only [if_neg (by simp : ¬ (false = true))]
    exact ih (fun x hx => h x (List.mem_cons_of_mem c hx)) rest

theorem dropThrough_self (pat tail : List Char) (h : pat ≠ []) :
    dropThrough pat (pat ++ tail) = some tail := by
  cases pat with
  | nil => exact absurd rfl h
  | cons p ps =>
    have h1 : isPre (p :: ps) (p :: (ps ++ tail)) = true := by
      have := isPre_append_self (p :: ps) tail
      simpa [List.cons_append] using this
    simp [List.cons_append, dropThrough, h1, List.drop_left]

theorem takeWhile_append_stop (p : Char → Bool) (u : List Char) (v : Char) (w : List Char)
    (hu : ∀ c ∈ u, p c = true) (hv : p v = false) :
    (u ++ v :: w).takeWhile p = u := by
  induction u with
  | nil => simp [List.takeWhile_cons, hv]
  | cons c cs ih =>
    simp only [List.cons_append, List.takeWhile_cons, hu c (List.mem_cons_self c cs), if_pos]
    rw [ih (fun x hx => hu x (List.mem_cons_of_mem c hx))]

/-- Extraction evaluates to `some ⟨u⟩` whenever the document decomposes as
a clean prefix, the opening tag, the text `u` (free of markup), and a
remainder opening with a markup character. -/
theorem extractField_eq (tag doc : String) (pat G u : List Char) (v : Char) (w : List Char)
    (hpat : ("<" ++ tag ++ ">").data = pat)
    (hdoc : doc.data = G ++ (pat ++ (u ++ v :: w)))
    (hG : CleanFor pat G) (hne : pat ≠ [])
    (hu : ∀ c ∈ u, ¬ c = '<') (hv : v = '<') :
    extractField tag doc = some ⟨u⟩ := by
  unfold extractField
  rw [hpat, hdoc, hG, dropThrough_self _ _ hne]
  have ht : (u ++ v :: w).takeWhile (fun c => c != '<') = u := by
    refine takeWhile_append_stop _ u v w (fun c hc => bne_iff_ne.mpr (hu c hc)) ?_
    rw [hv]
    decide
  simp [ht]

theorem cons_ne_markup {x : Char} {l : List Char} (hx : ¬ x = '<')
    (hl : ∀ c ∈ l, ¬ c = '<') : ∀ c ∈ x :: l, ¬ c = '<' := by
  intro c hc
  rcases List.mem_cons.mp hc with rfl | h
  · exact hx
  · exact hl c h

theorem digChar_ne_markup (n : ℕ) : ¬ digChar n = '<' := by
  unfold digChar
  split_ifs <;> decide

theorem natDecAux_ne_markup (fuel : ℕ) : ∀ n : ℕ, ∀ c ∈ natDecAux fuel n, ¬ c = '<' := by
  induction fuel with
  | zero => intro n c hc; cases hc
  | succ fuel ih =>
    intro n c hc
    simp only [natDecAux] at hc
    by_cases h : n < 10
    · rw [if_pos h] at hc
      rcases List.mem_singleton.mp hc with rfl
      exact digChar_ne_markup n
    · rw [if_neg h] at hc
      rcases List.mem_append.mp hc with h1 | h2
      · exact ih _ c h1
      · rcases List.mem_singleton.mp h2 with rfl
        exact digChar_ne_markup _

theorem natDecChars_ne_markup (n : ℕ) : ∀ c ∈ natDecChars n, ¬ c = '<' :=
  natDecAux_ne_markup (n + 1) n

theorem intDecChars_ne_markup (z : ℤ) : ∀ c ∈ intDecChars z, ¬ c = '<' := by
  unfold intDecChars
  split_ifs
  · exact cons_ne_markup (by decide) (natDecChars_ne_markup _)
  · exact natDecChars_ne_markup _

theorem pad2_ne_markup (n : ℕ) : ∀ c ∈ pad2 n, ¬ c = '<' := by
  unfold pad2
  split_ifs
  · exact cons_ne_markup (by decide) (natDecChars_ne_markup _)
  · exact natDecChars_ne_markup _

theorem pad4_ne_markup (n : ℕ) : ∀ c ∈ pad4 n, ¬ c = '<' := by
  unfold pad4
  split_ifs
  · exact cons_ne_markup (by decide) (cons_ne_markup (by decide)
      (cons_ne_markup (by decide) (natDecChars_ne_markup _)))
  · exact cons_ne_markup (by decide) (cons_ne_markup (by decide) (natDecChars_ne_markup _))
  · exact cons_ne_markup (by decide) (natDecChars_ne_markup _)
  · exact natDecChars_ne_markup _

theorem fmtUTCChars_ne_markup (t : ℤ) : ∀ c ∈ fmtUTCChars t, ¬ c = '<' := by
  simp only [fmtUTCChars]
  intro c hc
  simp only [List.mem_append, List.mem_cons] at hc
  rcases hc with (((((h | rfl | h) | rfl | h) | rfl | h) | rfl | h) | rfl | h) | h <;>
    first
      | exact pad4_ne_markup _ c h
      | exact pad2_ne_markup _ c h
      | (rcases h with rfl | hz
         · decide
         · cases hz)
      | decide

/-- C7: building a login request at reference instant `now` (whole Unix
seconds, UTC) and parsing it back preserves the service name and yields a
generation timestamp rendering exactly `now - 5 minutes`, an expiration
timestamp rendering exactly `now + 12 hours` (both via the UTC
`%Y-%m-%dT%H:%M:%SZ` renderer), and a unique identifier that is the
decimal rendering of the reference instant itself. -/
theorem build_ltr_roundtrip (service : String) (now : ℤ)
    (hs : ∀ c ∈ service.data, ¬ c = '<') :
    extractField "service" (build_ltr service now) = some service ∧
    extractField "generationTime" (build_ltr service now) = some (fmtUTC (now - 5 * 60)) ∧
    extractField "expirationTime" (build_ltr service now) = some (fmtUTC (now + 12 * 3600)) ∧
    extractField "uniqueId" (build_ltr service now) = some (intDec now) := by
  have hU1 : CleanFor (("<generationTime>").data) (intDecChars now) :=
    clean_no_head '<' (("generationTime>").data) (intDecChars now) (intDecChars_ne_markup now)
  have hU2 : CleanFor (("<expirationTime>").data) (intDecChars now) :=
    clean_no_head '<' (("expirationTime>").data) (intDecChars now) (intDecChars_ne_markup now)
  have hU3 : CleanFor (("<service>").data) (intDecChars now) :=
    clean_no_head '<' (("service>").data) (intDecChars now) (intDecChars_ne_markup now)
  have hG2 : CleanFor (("<expirationTime>").data) (fmtUTCChars (now - 5 * 60)) :=
    clean_no_head '<' (("expirationTime>").data) _ (fmtUTCChars_ne_markup _)
  have hG3 : CleanFor (("<service>").data) (fmtUTCChars (now - 5 * 60)) :=
    clean_no_head '<' (("service>").data) _ (fmtUTCChars_ne_markup _)
  have hE3 : CleanFor (("<service>").data) (fmtUTCChars (now + 12 * 3600)) :=
    clean_no_head '<' (("service>").data) _ (fmtUTCChars_ne_markup _)
  refine ⟨?_, ?_, ?_, ?_⟩
  · have hEnd : ltrEnd.data = '<' :: ("/service>\n</loginTicketRequest>\n").data := rfl
    refine extractField_eq _ _ (("<service>").data)
      (ltrPre.data ++ (("<uniqueId>").data ++ (intDecChars now ++ (ltrMid1.data ++
        (("<generationTime>").data ++ (fmtUTCChars (now - 5 * 60) ++ (ltrMid2.data ++
        (("<expirationTime>").data ++ (fmtUTCChars (now + 12 * 3600) ++ ltrMid3.data)))))))))
      service.data '<' (("/service>\n</loginTicketRequest>\n").data)
      rfl ?_
      (clean_append (noStop_clean _ _ (by decide)) (clean_append (noStop_clean _ _ (by decide))
        (clean_append hU3 (clean_append (noStop_clean _ _ (by decide))
        (clean_append (noStop_clean _ _ (by decide)) (clean_append hG3
        (clean_append (noStop_clean _ _ (by decide)) (clean_append (noStop_clean _ _ (by decide))
        (clean_append hE3 (noStop_clean _ _ (by decide)))))))))))
      (by decide) hs rfl
    simp [build_ltr, strdata_append, strdata_mk, intDec, fmtUTC, hEnd, List.append_assoc]
  · have hm2 : ltrMid2.data = '<' :: ("/generationTime>\n    ").data := rfl
    refine extractField_eq _ _ (("<generationTime>").data)
      (ltrPre.data ++ (("<uniqueId>").data ++ (intDecChars now ++ ltrMid1.data)))
      (fmtUTCChars (now - 5 * 60)) '<'
      (("/generationTime>\n    ").data ++ (("<expirationTime>").data ++
        (fmtUTCChars (now + 12 * 3600) ++ (ltrMid3.data ++ (("<service>").data ++
        (service.data ++ ltrEnd.data))))))
      rfl ?_
      (clean_append (noStop_clean _ _ (by decide)) (clean_append (noStop_clean _ _ (by decide))
        (clean_append hU1 (noStop_clean _ _ (by decide)))))
      (by decide) (fmtUTCChars_ne_markup _) rfl
    simp [build_ltr, strdata_append, strdata_mk, intDec, fmtUTC, hm2, List.append_assoc]
  · have hm3 : ltrMid3.data = '<' :: ("/expirationTime>\n  </header>\n  ").data := rfl
    refine extractField_eq _ _ (("<expirationTime>").data)
      (ltrPre.data ++ (("<uniqueId>").data ++ (intDecChars now ++ (ltrMid1.data ++
        (("<generationTime>").data ++ (fmtUTCChars (now - 5 * 60) ++ ltrMid2.data))))))
      (fmtUTCChars (now + 12 * 3600)) '<'
      (("/expirationTime>\n  </header>\n  ").data ++ (("<service>").data ++
        (service.data ++ ltrEnd.data)))
      rfl ?_
      (clean_append (noStop_clean _ _ (by decide)) (clean_append (noStop_clean _ _ (by decide))
        (clean_append hU2 (clean_append (noStop_clean _ _ (by decide))
        (clean_append (noStop_clean _ _ (by decide)) (clean_append hG2
        (noStop_clean _ _ (by decide))))))))
      (by decide) (fmtUTCChars_ne_markup _) rfl
    simp [build_ltr, strdata_append, strdata_mk, intDec, fmtUTC, hm3, List.append_assoc]
  · have hm1 : ltrMid1.data = '<' :: ("/uniqueId>\n    ").data := rfl
    refine extractField_eq _ _ (("<uniqueId>").data) ltrPre.data (intDecChars now) '<'
      (("/uniqueId>\n    ").data ++ (("<generationTime>").data ++ (fmtUTCChars (now - 5 * 60) ++
        (ltrMid2.data ++ (("<expirationTime>").data ++ (fmtUTCChars (now + 12 * 3600) ++
        (ltrMid3.data ++ (("<service>").data ++ (service.data ++ ltrEnd.data)))))))))
      rfl ?_ (noStop_clean _ _ (by decide)) (by decide) (intDecChars_ne_markup now) rfl
    simp [build_ltr, strdata_append, strdata_mk, intDec, fmtUTC, hm1, List.append_assoc]

/-- C7 witness: at the concrete instant 1700000000 with service "wsfe",
the built document parses back to service "wsfe", generation time
2023-11-14T22:08:20Z (exactly 5 minutes before), expiration time
2023-11-15T10:13:20Z (exactly 12 hours after), and unique id 1700000000. -/
theorem build_ltr_roundtrip_witness :
    extractField "service" (build_ltr "wsfe" 1700000000) = some "wsfe" ∧
    extractField "generationTime" (build_ltr "wsfe" 1700000000) =
      some "2023-11-14T22:08:20Z" ∧
    extractField "expirationTime" (build_ltr "wsfe" 1700000000) =
      some "2023-11-15T10:13:20Z" ∧
    extractField "uniqueId" (build_ltr "wsfe" 1700000000) = some "1700000000" := by
  have h := build_ltr_roundtrip "wsfe" 1700000000 (by decide)
  exact ⟨h.1, h.2.1.trans (by decide), h.2.2.1.trans (by decide), h.2.2.2.trans (by decide)⟩
